import Mathlib

/-!
Verification of the Prior-Art-Analyst extraction core.

Shallow embedding of:
  * `src/backend/app/integrations/watsonx_ai.py` (Generation Client + Stub Responder)
  * `src/backend/app/ml_services/claim_extractor.py` (Claim/Innovation Extractor,
    IPC Classification Table)

Python strings are modelled as Lean `String` (a string is its list of
code-point characters, which matches CPython for the ASCII texts this
program manipulates); the Python string methods used by the source
(`lower`, `in`, `count`, `replace`, `strip`, slicing, `index`) are given
explicit executable models below.  JSON values are modelled by the
inductive `JValue` with `Json.dumps` / `Json.loads` modelling the calls
`json.dumps` / `json.loads` of the Python standard library on the JSON
fragment this program exercises (objects, arrays, strings without escape
sequences, integers, booleans, null).  The MD5 digest used by the stub is
kept abstract: every definition takes a digest function `md5 : String → Nat`
and the theorems hold for an arbitrary digest, exactly as the spec demands
("any deterministic hash is acceptable").
-/

set_option maxRecDepth 100000

namespace PriorArt

/-- Model of Python `str.lower()` (character-wise lowering; CPython agrees on
the ASCII strings handled by this program). -/
def pyLower (s : String) : String := String.mk (s.data.map Char.toLower)

/-- Worker for `pyIn`: scans every suffix for the pattern as a prefix. -/
def pyInAux (sub : List Char) : List Char → Bool
  | [] => sub.isEmpty
  | c :: cs => sub.isPrefixOf (c :: cs) || pyInAux sub cs

/-- Model of Python's substring test `sub in s`. -/
def pyIn (sub s : String) : Bool := pyInAux sub.data s.data

/-- Model of Python `len(s)` (number of code points). -/
def pyLen (s : String) : Nat := s.data.length

/-- Model of Python slicing `s[:n]`. -/
def pyTake (n : Nat) (s : String) : String := String.mk (s.data.take n)

/-- Model of Python slicing `s[a:b]` (for `a ≤ b`). -/
def pySlice (s : String) (a b : Nat) : String :=
  String.mk ((s.data.drop a).take (b - a))

/-- Python's default `str.strip()` whitespace set. -/
def pyIsSpace (c : Char) : Bool :=
  c == ' ' || c == '\t' || c == '\n' || c == '\x0d' || c == '\x0b' || c == '\x0c'

/-- Model of Python `s.strip()`. -/
def pyStrip (s : String) : String :=
  String.mk (((s.data.dropWhile pyIsSpace).reverse.dropWhile pyIsSpace).reverse)

/-- Fuel-indexed worker for `pyCount` (the fuel is an upper bound on the
number of characters still to be scanned, so it never runs out). -/
def pyCountAux (sub : List Char) : Nat → List Char → Nat
  | 0, _ => 0
  | _ + 1, [] => 0
  | fuel + 1, c :: cs =>
    if sub.isPrefixOf (c :: cs) then
      1 + pyCountAux sub fuel (List.drop (sub.length - 1) cs)
    else
      pyCountAux sub fuel cs

/-- Model of Python `s.count(sub)`: non-overlapping occurrences, scanned left
to right (`"aaa".count("aa") = 1`); an empty pattern counts `len(s) + 1`. -/
def pyCount (s sub : String) : Nat :=
  if sub.data.isEmpty then pyLen s + 1
  else pyCountAux sub.data s.data.length s.data

/-- Fuel-indexed worker for `pyReplace`. -/
def pyReplaceAux (pat repl : List Char) : Nat → List Char → List Char
  | 0, s => s
  | _ + 1, [] => []
  | fuel + 1, c :: cs =>
    if pat.isPrefixOf (c :: cs) then
      repl ++ pyReplaceAux pat repl fuel (List.drop (pat.length - 1) cs)
    else
      c :: pyReplaceAux pat repl fuel cs

/-- Model of Python `s.replace(pat, repl)` for a non-empty `pat`:
every non-overlapping occurrence, scanned left to right, is replaced.
(The source only ever replaces the non-empty patterns three-backticks-json
and three-backticks.) -/
def pyReplace (s pat repl : String) : String :=
  if pat.data.isEmpty then s
  else String.mk (pyReplaceAux pat.data repl.data s.data.length s.data)

/-- Fuel-indexed worker for `pyIndexOf`. -/
def pyIndexOfAux (sub : List Char) : List Char → Nat
  | [] => 0
  | c :: cs => if sub.isPrefixOf (c :: cs) then 0 else 1 + pyIndexOfAux sub cs

/-- Model of Python `s.index(sub)` under the guard `sub in s` (the source
only calls `index` after an `in` test succeeded). -/
def pyIndexOf (s sub : String) : Nat := pyIndexOfAux sub.data s.data

/-- JSON values, as produced by `json.loads` / consumed by `json.dumps`.
Numbers are modelled as integers: every number this program ever serialises
is integral (the one `float(...)` the stub applies is to an integral score,
which JSON round-trips as the same numeric value). -/
inductive JValue : Type where
  | null : JValue
  | bool : Bool → JValue
  | num : Int → JValue
  | str : String → JValue
  | arr : List JValue → JValue
  | obj : List (String × JValue) → JValue

namespace Json

/-- Depth-fuelled serialiser body; the fuel bounds nesting depth only
(CPython's `json.dumps` is itself recursion-limited). -/
def dumpsF : Nat → JValue → String
  | 0, _ => ""
  | _ + 1, .null => "null"
  | _ + 1, .bool true => "true"
  | _ + 1, .bool false => "false"
  | _ + 1, .num n => toString n
  | _ + 1, .str s => "\"" ++ s ++ "\""
  | f + 1, .arr xs =>
    "[" ++ String.intercalate ", " (xs.map (dumpsF f)) ++ "]"
  | f + 1, .obj fs =>
    "\x7b" ++
      String.intercalate ", "
        (fs.map (fun kv => "\"" ++ kv.1 ++ "\": " ++ dumpsF f kv.2)) ++
    "\x7d"

/-- Model of `json.dumps` with default separators, on strings needing no
escaping (the only kind this program serialises). -/
def dumps (v : JValue) : String := dumpsF 1000 v

/-- JSON whitespace. -/
def jsonWs (c : Char) : Bool := c == ' ' || c == '\t' || c == '\n' || c == '\x0d'

/-- Accumulating decimal-digit reader (already past the first digit). -/
def parseNatAcc (acc : Nat) : List Char → Nat × List Char
  | [] => (acc, [])
  | c :: cs =>
    if c.isDigit then parseNatAcc (acc * 10 + (c.toNat - 48)) cs
    else (acc, c :: cs)

mutual

/-- Fuel-indexed recursive-descent reader for one JSON value; returns the
value and the unconsumed input. -/
def parseVal : Nat → List Char → Option (JValue × List Char)
  | 0, _ => none
  | _ + 1, [] => none
  | fuel + 1, c :: cs =>
    if c == 'n' then
      if cs.take 3 = ['u', 'l', 'l'] then some (.null, cs.drop 3) else none
    else if c == 't' then
      if cs.take 3 = ['r', 'u', 'e'] then some (.bool true, cs.drop 3) else none
    else if c == 'f' then
      if cs.take 4 = ['a', 'l', 's', 'e'] then some (.bool false, cs.drop 4) else none
    else if c == '"' then
      match parseStr fuel cs with
      | some (s, rest) => some (.str s, rest)
      | none => none
    else if c == '-' then
      match cs with
      | d :: ds =>
        if d.isDigit then
          let (n, rest) := parseNatAcc (d.toNat - 48) ds
          some (.num (-(n : Int)), rest)
        else none
      | [] => none
    else if c.isDigit then
      let (n, rest) := parseNatAcc (c.toNat - 48) cs
      some (.num (n : Int), rest)
    else if c == '[' then
      match (cs.dropWhile jsonWs) with
      | ']' :: rest => some (.arr [], rest)
      | rest =>
        match parseElems fuel rest with
        | some (xs, rest2) => some (.arr xs, rest2)
        | none => none
    else if c == '\x7b' then
      match (cs.dropWhile jsonWs) with
      | '\x7d' :: rest => some (.obj [], rest)
      | rest =>
        match parseFields fuel rest with
        | some (fs, rest2) => some (.obj fs, rest2)
        | none => none
    else none

/-- Reads a string body up to the closing quote (escape-free strings: the
JSON this program parses and prints carries none). -/
def parseStr : Nat → List Char → Option (String × List Char)
  | 0, _ => none
  | _ + 1, [] => none
  | fuel + 1, c :: cs =>
    if c == '"' then some ("", cs)
    else
      match parseStr fuel cs with
      | some (s, rest) => some (String.mk (c :: s.data), rest)
      | none => none

/-- Reads the comma-separated elements of a non-empty array, including the
closing bracket. -/
def parseElems : Nat → List Char → Option (List JValue × List Char)
  | 0, _ => none
  | fuel + 1, input =>
    match parseVal fuel input with
    | some (v, rest) =>
      match rest.dropWhile jsonWs with
      | ',' :: rest2 =>
        match parseElems fuel (rest2.dropWhile jsonWs) with
        | some (xs, rest3) => some (v :: xs, rest3)
        | none => none
      | ']' :: rest2 => some ([v], rest2)
      | _ => none
    | none => none

/-- Reads the comma-separated members of a non-empty object, including the
closing brace. -/
def parseFields : Nat → List Char → Option (List (String × JValue) × List Char)
  | 0, _ => none
  | fuel + 1, input =>
    match input with
    | '"' :: cs =>
      match parseStr fuel cs with
      | some (k, rest) =>
        match rest.dropWhile jsonWs with
        | ':' :: rest2 =>
          match parseVal fuel (rest2.dropWhile jsonWs) with
          | some (v, rest3) =>
            match rest3.dropWhile jsonWs with
            | ',' :: rest4 =>
              match parseFields fuel (rest4.dropWhile jsonWs) with
              | some (fs, rest5) => some ((k, v) :: fs, rest5)
              | none => none
            | '\x7d' :: rest4 => some ([(k, v)], rest4)
            | _ => none
          | none => none
        | _ => none
      | none => none
    | _ => none

end

/-- Model of `json.loads` on the fragment above: a single value, optionally
surrounded by whitespace, with nothing but whitespace after it; `none`
models `json.JSONDecodeError`. -/
def loads (s : String) : Option JValue :=
  match parseVal (2 * s.data.length + 2) (s.data.dropWhile jsonWs) with
  | some (v, rest) => if (rest.dropWhile jsonWs).isEmpty then some v else none
  | none => none

end Json

/-- Assoc-list field lookup, modelling Python `dict` access on a parsed JSON
object (the objects this development parses have pairwise distinct keys). -/
def jLookup (fields : List (String × JValue)) (k : String) : Option JValue :=
  match fields with
  | [] => none
  | (k', v) :: rest => if k' = k then some v else jLookup rest k

/-!
## `src/backend/app/integrations/watsonx_ai.py`

The real backend call `self.model.generate_text(prompt)` is an external
collaborator; its behaviour is a parameter of type `Backend` (a response or
a raised error per prompt).  The construction-time environment
(`WATSONX_API_KEY`, `WATSONX_URL`, `WATSONX_PROJECT_ID`, SDK availability,
`ModelInference` initialisation outcome) is likewise passed to
`WatsonxAI.init` as explicit parameters.
-/

/-- Behaviour of the external `ModelInference.generate_text` collaborator:
for each prompt either a generated string or a raised exception. -/
def Backend : Type := String → Except String String

/-- State of a `WatsonxAI` object (fields set by `__init__`, lines 54-104). -/
structure WatsonxAI where
  api_key : Option String
  watsonx_url : String
  project_id : Option String
  model_id : String
  model : Option Backend
  use_stub : Bool

/-- Python truthiness of an optional string (`os.getenv` result):
`None` and the empty string are falsy. -/
def pyTruthy (o : Option String) : Bool :=
  match o with
  | none => false
  | some s => !s.data.isEmpty

/-- `WatsonxAI.__init__` (lines 54-104): absence of API key or project id -/
-- selects stub mode; an unavailable SDK selects stub mode; otherwise the
-- `ModelInference` construction is attempted and a raised error demotes to
-- stub mode.
def WatsonxAI.init (env_api_key env_watsonx_url env_project_id : Option String)
    (model_id : String) (watsonx_available : Bool)
    (model_init : Except String Backend) : WatsonxAI :=
  let api_key := env_api_key
  let watsonx_url := env_watsonx_url.getD "https://us-south.ml.cloud.ibm.com"
  let project_id := env_project_id
  if !pyTruthy api_key || !pyTruthy project_id then
    { api_key, watsonx_url, project_id, model_id, model := none, use_stub := true }
  else if !watsonx_available then
    { api_key, watsonx_url, project_id, model_id, model := none, use_stub := true }
  else
    match model_init with
    | .ok m =>
      { api_key, watsonx_url, project_id, model_id, model := some m, use_stub := false }
    | .error _ =>
      { api_key, watsonx_url, project_id, model_id, model := none, use_stub := true }

/-- The members of the dict literal of the stub's patentability branch
(lines 187-193), in source order.  The caller passes `confidence` already
clamped by `min(95, ·)` exactly as at the call site. -/
def patentabilityStubFields (is_patentable : Bool) (confidence : Nat) :
    List (String × JValue) :=
  [("isPatentable", .bool is_patentable),
   ("confidence", .num confidence),
   ("reasoning", .str ("Analysis indicates " ++
     (if is_patentable then "patentable" else "publishable") ++ " disclosure")),
   ("missingElements", .arr (if is_patentable then [] else
     [.str "Specific implementation details",
      .str "Manufacturing specifications"])),
   ("recommendations", .arr
     [.str "Review disclosure against prior art",
      .str "Consider claim scope"])]

/-- The dict literal of the stub's patentability branch (lines 187-193). -/
def patentabilityStubJson (is_patentable : Bool) (confidence : Nat) : JValue :=
  .obj (patentabilityStubFields is_patentable confidence)

/-- The members of the dict literal of the stub's similarity branch
(lines 202-214), in source order.  The Python source wraps the integral
score in `float(...)`; the resulting JSON number is modelled by the integer
itself. -/
def similarityStubFields (similarity_score : Nat) : List (String × JValue) :=
  [("similarity_score", .num similarity_score),
   ("overlapping_concepts", .arr (if similarity_score > 60 then
     [.str "Technical architecture similarity",
      .str "Implementation approach",
      .str "Performance optimization strategy"]
     else [.str "Generic technological domain"])),
   ("key_differences", .arr
     [.str "Novel algorithm implementation",
      .str "Enhanced efficiency metrics",
      .str "Improved scaling approach"])]

/-- The dict literal of the stub's similarity branch (lines 202-214). -/
def similarityStubJson (similarity_score : Nat) : JValue :=
  .obj (similarityStubFields similarity_score)

/-- `WatsonxAI._stub_generate` (lines 167-243).  The MD5 digest
`int(hashlib.md5(prompt.encode()).hexdigest(), 16)` is the abstract
deterministic digest `md5 prompt`. -/
def WatsonxAI.stub_generate (md5 : String → Nat) (prompt : String) : String :=
  let prompt_lower := pyLower prompt
  let prompt_hash := md5 prompt
  let seed_score := prompt_hash % 40 + 40
  if pyIn "patentability" prompt_lower || pyIn "patentable" prompt_lower then
    let is_patentable := pyIn "device" prompt_lower || pyIn "method" prompt_lower ||
      pyIn "system" prompt_lower || pyIn "process" prompt_lower
    let confidence := 60 + prompt_hash % 35
    Json.dumps (patentabilityStubJson is_patentable (min 95 confidence))
  else if pyIn "similarity" prompt_lower || pyIn "compare" prompt_lower then
    let innovation_count := pyCount prompt_lower "innovation" + pyCount prompt_lower "feature"
    let base_score := seed_score + innovation_count * 2
    let similarity_score := min 95 (max 10 base_score)
    Json.dumps (similarityStubJson similarity_score)
  else if pyIn "innovation" prompt_lower || pyIn "extract" prompt_lower then
    let num_innovations := 3 + pyLen prompt / 500
    Json.dumps (.arr ((List.range (min 5 num_innovations)).map
      (fun i => .str ("Technical innovation " ++ toString (i + 1)))))
  else if pyIn "invention disclosure" prompt_lower && pyIn "convert" prompt_lower then
    "\nTitle: Generated Invention Disclosure (" ++ toString (prompt_hash % 1000) ++
    ")\n\nBackground:\nTechnical innovation system designed for improved performance metrics.\n\nKey Innovations:\n1. Primary technical advancement for system efficiency\n2. Secondary optimization approach for resource management\n3. Tertiary enhancement for scalability\n\nTechnical Details:\n- Performance improvement: " ++
    toString (40 + prompt_hash % 40) ++
    "%\n- Complexity metric: O(n log n)\n- Resource efficiency: Enhanced\n"
  else
    "Analysis generated with dynamic response (seed: " ++ toString (prompt_hash % 10000) ++ ")"

/-- `WatsonxAI.generate` (lines 106-136): stub when unconfigured or
uninitialised, otherwise the backend's trimmed response, falling back to the
stub when the backend call raises.  Total: no path raises.  The returned
second component is the object state after the call. -/
def WatsonxAI.generate (w : WatsonxAI) (md5 : String → Nat) (prompt : String) :
    String × WatsonxAI :=
  if w.use_stub || w.model.isNone then
    (WatsonxAI.stub_generate md5 prompt, w)
  else
    match w.model with
    | some m =>
      match m prompt with
      | .ok response => (pyStrip response, w)
      | .error _ => (WatsonxAI.stub_generate md5 prompt, w)
    | none => (WatsonxAI.stub_generate md5 prompt, w)

/-- The code-fence cleanup idiom
`response.replace('```json', '').replace('```', '').strip()` shared by
`generate_json` (line 159), `ClaimExtractor.assess_patentability` (line 105)
and `ClaimExtractor._extract_innovations` (line 215). -/
def cleanFences (response : String) : String :=
  pyStrip (pyReplace (pyReplace response "```json" "") "```" "")

/-- `WatsonxAI.generate_json` (lines 138-165): cleans code fences, parses the
remainder as JSON; a parse failure (`json.JSONDecodeError`, carrying the
offending cleaned text) is re-raised to the caller. -/
def WatsonxAI.generate_json (w : WatsonxAI) (md5 : String → Nat) (prompt : String) :
    Except String JValue × WatsonxAI :=
  let p := w.generate md5 prompt
  let cleaned := cleanFences p.1
  match Json.loads cleaned with
  | some v => (.ok v, p.2)
  | none => (.error cleaned, p.2)

/-- The fixed text preceding the interpolation in the patentability prompt
template.  The templates of `WatsonxAI.assess_patentability` (lines 264-290)
and `ClaimExtractor.assess_patentability` (lines 73-99) are character for
character identical, so both prompt builders share these two literals. -/
def patentabilityPromptHead : String :=
  "\nAnalyze if this invention disclosure is PATENTABLE or just PUBLISHABLE research.\n\nPATENTABLE inventions have:\n- Specific device design, process steps, or method\n- Industrial application (can be manufactured/used)\n- Technical details (numbers, materials, configurations)\n\nPUBLISHABLE-ONLY research:\n- Only theory or experimental results\n- No specific implementation\n- Just observations or discoveries\n\nDisclosure (first 2000 chars):\n"

/-- The fixed text following the interpolation in the patentability prompt
template. -/
def patentabilityPromptTail : String :=
  "\n\nRespond with ONLY valid JSON:\n\x7b\n    \"isPatentable\": true/false,\n    \"confidence\": 0-100,\n    \"reasoning\": \"brief explanation\",\n    \"missingElements\": [\"element1\", \"element2\"],\n    \"recommendations\": [\"add specific device details\", \"define manufacturing process\"]\n\x7d\n\nDO NOT include any text before or after the JSON.\n"

/-- The f-string prompt template of `WatsonxAI.assess_patentability`
(lines 264-290), with the first 2000 characters of the disclosure
interpolated. -/
def WatsonxAI.assess_patentability_prompt (text : String) : String :=
  patentabilityPromptHead ++ pyTake 2000 text ++ patentabilityPromptTail

/-- `WatsonxAI.assess_patentability` (lines 245-292): builds the prompt and
delegates to `generate_json` (so a JSON parse failure propagates). -/
def WatsonxAI.assess_patentability (w : WatsonxAI) (md5 : String → Nat) (text : String) :
    Except String JValue × WatsonxAI :=
  w.generate_json md5 (WatsonxAI.assess_patentability_prompt text)

/-!
## `src/backend/app/ml_services/claim_extractor.py`

A `ClaimExtractor` instance holds a `WatsonxNLU` and a `WatsonxAI`; its
methods are modelled as functions taking the `WatsonxAI` state, the digest
function and the NLU collaborator's behaviour explicitly.
-/

/-- Modelled from the spec: the `WatsonxNLU.analyze` collaborator
(`app/integrations/watsonx_nlu.py` is not included under `src/`).  Per the
spec's external-interface section it returns a mapping
`{keywords: ordered list of {text: string, ...}, ...}`; a behaviour is
modelled as, per disclosure text, either the ordered list of the keyword
`text` fields of that mapping or a raised error. -/
def NLUBehaviour : Type := String → Except String (List String)

/-- Result record of `ClaimExtractor.assess_patentability` (lines 108-113 /
121-126).  Each field holds the JSON value placed in the Python dict (the
code performs no validation, so any JSON value can appear). -/
structure PatentabilityResult where
  isPatentable : JValue
  confidence : JValue
  missingElements : JValue
  recommendations : JValue

/-- The fixed fail-open fallback of `ClaimExtractor.assess_patentability`
(lines 121-126). -/
def ClaimExtractor.patentabilityFallback : PatentabilityResult :=
  { isPatentable := .bool true,
    confidence := .num 60,
    missingElements := .arr [],
    recommendations := .arr [.str "Manual review recommended - automated assessment failed"] }

/-- The f-string prompt template of `ClaimExtractor.assess_patentability`
(lines 73-99); textually identical to the `WatsonxAI` one (see
`patentabilityPromptHead`). -/
def ClaimExtractor.assess_patentability_prompt (text : String) : String :=
  patentabilityPromptHead ++ pyTake 2000 text ++ patentabilityPromptTail

/-- `ClaimExtractor.assess_patentability` (lines 39-126).  Everything after
`generate` sits in one `try`: a JSON parse failure, or the `AttributeError`
of calling `.get` on a parsed non-dict, lands in the `except` branch and
yields the fixed fallback; on a parsed dict each field is read with
`dict.get` and an explicit default.  (`generate` itself is total, so no
other exception can arise.)  Total: never raises. -/
def ClaimExtractor.assess_patentability (w : WatsonxAI) (md5 : String → Nat)
    (text : String) : PatentabilityResult :=
  let prompt := ClaimExtractor.assess_patentability_prompt text
  let response := (w.generate md5 prompt).1
  let cleaned := cleanFences response
  match Json.loads cleaned with
  | some (.obj fields) =>
    { isPatentable := (jLookup fields "isPatentable").getD (.bool true),
      confidence := (jLookup fields "confidence").getD (.num 50),
      missingElements := (jLookup fields "missingElements").getD (.arr []),
      recommendations := (jLookup fields "recommendations").getD (.arr []) }
  | _ => ClaimExtractor.patentabilityFallback

/-- The fixed marker list of `ClaimExtractor._extract_background`
(line 180), in source order. -/
def ClaimExtractor.background_patterns : List String :=
  ["background", "prior art", "field of invention", "technical field",
   "problem", "introduction", "overview"]

/-- The pattern loop of `ClaimExtractor._extract_background` (lines 182-191):
first marker found in the lowercased text wins; an empty stripped slice falls
through to the next marker; after the loop the first 300 characters (or a
fixed placeholder) are returned. -/
def ClaimExtractor.background_scan (text : String) : List String → String
  | [] =>
    let background := pyStrip (pyTake 300 text)
    if background.data.isEmpty then "Technical disclosure provided" else background
  | p :: rest =>
    let text_lower := pyLower text
    if pyIn p text_lower then
      let start := pyIndexOf text_lower p
      let background := pyStrip (pySlice text start (start + 500))
      if background.data.isEmpty then ClaimExtractor.background_scan text rest
      else background
    else ClaimExtractor.background_scan text rest

/-- `ClaimExtractor._extract_background` (lines 168-191). -/
def ClaimExtractor.extract_background (text : String) : String :=
  if text.data.isEmpty then "No disclosure text provided"
  else ClaimExtractor.background_scan text ClaimExtractor.background_patterns

/-- The f-string prompt of `ClaimExtractor._extract_innovations`
(lines 200-209). -/
def ClaimExtractor.innovations_prompt (text : String) : String :=
  "\nExtract the 3-5 key technical innovations from this disclosure.\nFocus on WHAT is new, not WHY it's important.\n\nDisclosure:\n" ++
  pyTake 1500 text ++
  "\n\nReturn JSON list:\n[\"Innovation 1\", \"Innovation 2\", ...]\n"

/-- `ClaimExtractor._extract_innovations` (lines 193-226): generates,
cleans fences, parses; a parsed non-empty JSON list is returned as-is
(its items may be arbitrary JSON values), anything else — parse failure,
a parsed non-list (`ValueError` raised and caught), or a parsed empty
list — yields the fixed one-item failure placeholder.  The `nlu_result`
parameter is accepted and ignored exactly as in the source. -/
def ClaimExtractor.extract_innovations (w : WatsonxAI) (md5 : String → Nat)
    (text : String) (nlu_result : List String) : List JValue :=
  let _ := nlu_result
  let prompt := ClaimExtractor.innovations_prompt text
  let response := (w.generate md5 prompt).1
  let cleaned := cleanFences response
  match Json.loads cleaned with
  | some (.arr innovations) =>
    if innovations.isEmpty then
      [.str "Innovation extraction failed - manual review needed"]
    else innovations
  | _ => [.str "Innovation extraction failed - manual review needed"]

/-- The static keyword-to-IPC table of `ClaimExtractor._classify_ipc`
(lines 234-258), in source order. -/
def ClaimExtractor.ipc_mapping : List (String × List String) :=
  [("battery", ["H01M10/05"]),
   ("electrolyte", ["H01M10/0562"]),
   ("lithium", ["H01M10/0525"]),
   ("drug", ["A61K31"]),
   ("pharmaceutical", ["A61K"]),
   ("neural network", ["G06N3/08"]),
   ("machine learning", ["G06N20/00"]),
   ("sensor", ["G01D5/00"]),
   ("semiconductor", ["H01L29/00"]),
   ("database", ["G06F16"]),
   ("communication", ["H04L"]),
   ("wireless", ["H04W"]),
   ("software", ["G06F"]),
   ("algorithm", ["G06F"]),
   ("network", ["H04L"]),
   ("medical", ["A61"]),
   ("chemical", ["C01"]),
   ("polymer", ["C08"]),
   ("metal", ["C22"]),
   ("engine", ["F02"]),
   ("mechanical", ["F16"]),
   ("display", ["G09"]),
   ("optics", ["G02"])]

/-- Set insertion on the accumulator modelling membership in the Python
`set` `codes` (insertion order is irrelevant: the result is sorted). -/
def setAdd (acc : List String) (c : String) : List String :=
  if c ∈ acc then acc else acc ++ [c]

/-- `codes.update(ipc_codes)`: add every element. -/
def setAddAll (acc : List String) (cs : List String) : List String :=
  cs.foldl setAdd acc

/-- Code-point lexicographic order on character lists: the comparison
Python's `sorted` applies to `str` values. -/
def lexLe : List Char → List Char → Bool
  | [], _ => true
  | _ :: _, [] => false
  | a :: as, b :: bs =>
    if a.toNat < b.toNat then true
    else if a.toNat = b.toNat then lexLe as bs
    else false

/-- Python string comparison `a <= b` (code-point lexicographic). -/
def pyStrLe (a b : String) : Prop := lexLe a.data b.data = true

instance : DecidableRel pyStrLe :=
  fun a b => inferInstanceAs (Decidable (lexLe a.data b.data = true))

/-- Body of the inner loop of `_classify_ipc` (lines 263-265): one table
entry is tested against the lowercased keyword and, on a substring hit, its
codes are all added. -/
def classifyInnerStep (keyword_lower : String) (acc : List String)
    (entry : String × List String) : List String :=
  if pyIn entry.1 keyword_lower then setAddAll acc entry.2 else acc

/-- Body of the outer loop of `_classify_ipc` (lines 261-265): one keyword
is lowercased and run against the whole table. -/
def classifyStep (acc : List String) (keyword : String) : List String :=
  let keyword_lower := pyLower keyword
  ClaimExtractor.ipc_mapping.foldl (classifyInnerStep keyword_lower) acc

/-- `ClaimExtractor._classify_ipc` (lines 228-271): for each keyword,
lowercase it and add the codes of every table entry whose term is a
substring; default to `{'G06F'}` when nothing matched; return
`sorted(list(codes))` (Python compares `str` values by code point, which is
`pyStrLe`). -/
def ClaimExtractor.classify_ipc (keywords : List String) : List String :=
  let codes := keywords.foldl classifyStep []
  List.insertionSort pyStrLe (if codes.isEmpty then ["G06F"] else codes)

/-- Result record of `ClaimExtractor.extract` (lines 158-163). -/
structure ExtractedClaims where
  background : String
  innovations : List JValue
  keywords : List String
  ipcClassifications : List String

/-- `ClaimExtractor.extract` (lines 128-166): background first, then the NLU
call (whose raised error propagates — there is no `try` around it), then
innovation extraction, keyword truncation to 20, IPC classification, and the
final bundle with its emptiness fallbacks.  Against the spec-shaped NLU
result, the comprehension `[kw['text'] for kw in nlu_result.get('keywords', [])]`
is exactly the modelled keyword-text list. -/
def ClaimExtractor.extract (w : WatsonxAI) (md5 : String → Nat)
    (nlu_analyze : NLUBehaviour) (text : String) : Except String ExtractedClaims :=
  let background := ClaimExtractor.extract_background text
  match nlu_analyze text with
  | .error e => .error e
  | .ok nlu_keywords =>
    let innovations := ClaimExtractor.extract_innovations w md5 text nlu_keywords
    let keywords := nlu_keywords.take 20
    let ipc_codes := ClaimExtractor.classify_ipc keywords
    .ok { background := background,
          innovations := if innovations.isEmpty then
              [.str "Innovation extraction pending"] else innovations,
          keywords := if keywords.isEmpty then ["disclosure", "analysis"] else keywords,
          ipcClassifications := if ipc_codes.isEmpty then ["G06F"] else ipc_codes }

/-!
## Helper lemmas
-/

theorem pyInAux_iff (sub : List Char) : ∀ l : List Char, pyInAux sub l = true ↔ sub <:+: l
  | [] => by simp [pyInAux, List.infix_nil, List.isEmpty_iff]
  | c :: cs => by
    simp [pyInAux, Bool.or_eq_true, List.isPrefixOf_iff_prefix, pyInAux_iff sub cs,
      List.infix_cons_iff]

theorem pyIn_iff {sub s : String} : pyIn sub s = true ↔ sub.data <:+: s.data :=
  pyInAux_iff _ _

theorem pyLower_data_append (a b : String) :
    (pyLower (a ++ b)).data = (pyLower a).data ++ (pyLower b).data := by
  show List.map Char.toLower (a ++ b).data =
    List.map Char.toLower a.data ++ List.map Char.toLower b.data
  rw [String.data_append, List.map_append]

/-- A marker contained in `a` is contained in `(a ++ b).lower()`. -/
theorem pyIn_lower_append_left (sub a b : String)
    (h : pyIn sub (pyLower a) = true) : pyIn sub (pyLower (a ++ b)) = true := by
  rw [pyIn_iff] at h ⊢
  rw [pyLower_data_append]
  exact h.trans ⟨[], (pyLower b).data, by simp⟩

/-- A marker contained in `b` is contained in `(a ++ b).lower()`. -/
theorem pyIn_lower_append_right (sub a b : String)
    (h : pyIn sub (pyLower b) = true) : pyIn sub (pyLower (a ++ b)) = true := by
  rw [pyIn_iff] at h ⊢
  rw [pyLower_data_append]
  exact h.trans ⟨(pyLower a).data, [], by simp⟩

/-- The fixed patentability template head always contributes the stub's
`'patentable'` branch marker, whatever the interpolated disclosure. -/
theorem patentabilityPrompt_marker (text : String) :
    pyIn "patentable"
      (pyLower (patentabilityPromptHead ++ pyTake 2000 text ++ patentabilityPromptTail)) = true := by
  apply pyIn_lower_append_left
  apply pyIn_lower_append_left
  decide

/-- The fixed patentability template head always contributes the stub's
`'device'` trigger word, whatever the interpolated disclosure. -/
theorem patentabilityPrompt_device (text : String) :
    pyIn "device"
      (pyLower (patentabilityPromptHead ++ pyTake 2000 text ++ patentabilityPromptTail)) = true := by
  apply pyIn_lower_append_left
  apply pyIn_lower_append_left
  decide

/-- In stub mode (flag set, or no initialised model) `generate` is exactly
the Stub Responder and the state is untouched. -/
theorem generate_stub_of_stub_mode (w : WatsonxAI) (md5 : String → Nat) (prompt : String)
    (h : (w.use_stub || w.model.isNone) = true) :
    w.generate md5 prompt = (WatsonxAI.stub_generate md5 prompt, w) := by
  unfold WatsonxAI.generate
  simp [h]

/-- The stub's patentability JSON survives the fence-stripping and re-parsing
pipeline for every reachable confidence value. -/
theorem patStub_roundtrip : ∀ r : Nat, r < 35 →
    Json.loads (cleanFences (Json.dumps (patentabilityStubJson true (min 95 (60 + r))))) =
      some (patentabilityStubJson true (min 95 (60 + r))) := by
  intro r hr
  interval_cases r <;> rfl

/-- On the patentability prompt the Stub Responder always takes the
patentability branch with `is_patentable = True` (the template supplies both
the branch marker and the trigger word), for any digest and disclosure. -/
theorem stub_generate_patPrompt (md5 : String → Nat) (text : String) :
    WatsonxAI.stub_generate md5
        (patentabilityPromptHead ++ pyTake 2000 text ++ patentabilityPromptTail) =
      Json.dumps (patentabilityStubJson true (min 95 (60 +
        md5 (patentabilityPromptHead ++ pyTake 2000 text ++ patentabilityPromptTail) % 35))) := by
  have h1 := patentabilityPrompt_marker text
  have h2 := patentabilityPrompt_device text
  unfold WatsonxAI.stub_generate
  simp only [h1, h2, Bool.or_true, Bool.true_or, eq_self_iff_true, if_true]

/-- When the patentability prompt's generation goes through the Stub
Responder (stub mode, or a backend failure on that call),
`WatsonxAI.assess_patentability` successfully parses the stub's
patentability JSON and returns it. -/
theorem waiAssess_stub (w : WatsonxAI) (md5 : String → Nat) (text : String)
    (h : w.generate md5 (patentabilityPromptHead ++ pyTake 2000 text ++ patentabilityPromptTail) =
      (WatsonxAI.stub_generate md5
        (patentabilityPromptHead ++ pyTake 2000 text ++ patentabilityPromptTail), w)) :
    (WatsonxAI.assess_patentability w md5 text).1 =
      Except.ok (patentabilityStubJson true (min 95 (60 +
        md5 (WatsonxAI.assess_patentability_prompt text) % 35))) := by
  unfold WatsonxAI.assess_patentability WatsonxAI.generate_json
    WatsonxAI.assess_patentability_prompt
  simp only [h]
  rw [stub_generate_patPrompt md5 text]
  rw [patStub_roundtrip _ (Nat.mod_lt _ (by norm_num))]

/-- When the patentability prompt's generation goes through the Stub
Responder, `ClaimExtractor.assess_patentability` parses the stub's
patentability JSON and reports `isPatentable = True`. -/
theorem ceAssess_stub (w : WatsonxAI) (md5 : String → Nat) (text : String)
    (h : w.generate md5 (patentabilityPromptHead ++ pyTake 2000 text ++ patentabilityPromptTail) =
      (WatsonxAI.stub_generate md5
        (patentabilityPromptHead ++ pyTake 2000 text ++ patentabilityPromptTail), w)) :
    (ClaimExtractor.assess_patentability w md5 text).isPatentable = JValue.bool true := by
  unfold ClaimExtractor.assess_patentability ClaimExtractor.assess_patentability_prompt
  simp only [h]
  rw [stub_generate_patPrompt md5 text]
  rw [patStub_roundtrip _ (Nat.mod_lt _ (by norm_num))]
  rfl


theorem lexLe_total : ∀ as bs : List Char, lexLe as bs = true ∨ lexLe bs as = true
  | [], _ => Or.inl rfl
  | _ :: _, [] => Or.inr rfl
  | a :: as, b :: bs => by
    simp only [lexLe]
    rcases Nat.lt_trichotomy a.toNat b.toNat with h | h | h
    · left
      rw [if_pos h]
    · rcases lexLe_total as bs with ih | ih
      · left
        rw [if_neg (by omega), if_pos h, ih]
      · right
        rw [if_neg (by omega), if_pos h.symm, ih]
    · right
      rw [if_pos h]

theorem lexLe_trans : ∀ as bs cs : List Char,
    lexLe as bs = true → lexLe bs cs = true → lexLe as cs = true
  | [], _, _ => by intro _ _; rfl
  | _ :: _, [], _ => by intro h _; simp [lexLe] at h
  | _ :: _, _ :: _, [] => by intro _ h; simp [lexLe] at h
  | a :: as, b :: bs, c :: cs => by
    simp only [lexLe]
    intro h1 h2
    split_ifs at h1 h2 ⊢ with hab1 hab2 hbc1 hbc2 hac1 hac2
    all_goals first
      | rfl
      | omega
      | (exact lexLe_trans as bs cs h1 h2)

instance : IsTotal String pyStrLe :=
  ⟨fun a b => lexLe_total a.data b.data⟩

instance : IsTrans String pyStrLe :=
  ⟨fun a b c => lexLe_trans a.data b.data c.data⟩

theorem mem_setAdd_of_mem {x : String} {acc : List String} (c : String)
    (h : x ∈ acc) : x ∈ setAdd acc c := by
  unfold setAdd
  split
  · exact h
  · exact List.mem_append.mpr (Or.inl h)

theorem mem_setAdd_self (acc : List String) (c : String) : c ∈ setAdd acc c := by
  unfold setAdd
  by_cases hmem : c ∈ acc
  · rw [if_pos hmem]
    exact hmem
  · rw [if_neg hmem]
    exact List.mem_append.mpr (Or.inr (List.mem_singleton.mpr rfl))

theorem setAdd_nodup {acc : List String} (c : String) (h : acc.Nodup) :
    (setAdd acc c).Nodup := by
  unfold setAdd
  by_cases hmem : c ∈ acc
  · rw [if_pos hmem]
    exact h
  · rw [if_neg hmem]
    exact List.nodup_append.mpr ⟨h, List.nodup_singleton c,
      fun a ha hb => hmem ((List.mem_singleton.mp hb) ▸ ha)⟩

theorem mem_setAddAll_of_mem {x : String} (cs : List String) :
    ∀ acc : List String, x ∈ acc → x ∈ setAddAll acc cs := by
  induction cs with
  | nil => exact fun _ h => h
  | cons c cs ih => exact fun acc h => ih (setAdd acc c) (mem_setAdd_of_mem c h)

theorem mem_setAddAll_self {c : String} (cs : List String) (hc : c ∈ cs) :
    ∀ acc : List String, c ∈ setAddAll acc cs := by
  induction cs with
  | nil => cases hc
  | cons d ds ih =>
    intro acc
    rcases List.mem_cons.mp hc with h | h
    · exact mem_setAddAll_of_mem ds (setAdd acc d) (h ▸ mem_setAdd_self acc d)
    · exact ih h (setAdd acc d)

theorem setAddAll_nodup (cs : List String) :
    ∀ acc : List String, acc.Nodup → (setAddAll acc cs).Nodup := by
  induction cs with
  | nil => exact fun _ h => h
  | cons c cs ih => exact fun acc h => ih (setAdd acc c) (setAdd_nodup c h)

theorem mem_innerFold_of_mem (kl : String) (mapping : List (String × List String)) :
    ∀ {x : String} {acc : List String}, x ∈ acc →
      x ∈ mapping.foldl (classifyInnerStep kl) acc := by
  induction mapping with
  | nil => exact fun h => h
  | cons e es ih =>
    intro x acc h
    refine ih ?_
    unfold classifyInnerStep
    split
    · exact mem_setAddAll_of_mem e.2 acc h
    · exact h

theorem mem_innerFold_hit (kl : String) (mapping : List (String × List String))
    {entry : String × List String} {c : String}
    (he : entry ∈ mapping) (hc : pyIn entry.1 kl = true) (hm : c ∈ entry.2) :
    ∀ acc : List String, c ∈ mapping.foldl (classifyInnerStep kl) acc := by
  induction mapping with
  | nil => cases he
  | cons e es ih =>
    intro acc
    rcases List.mem_cons.mp he with h | h
    · subst h
      refine mem_innerFold_of_mem kl es ?_
      unfold classifyInnerStep
      rw [if_pos hc]
      exact mem_setAddAll_self entry.2 hm acc
    · exact ih h (classifyInnerStep kl acc e)

theorem innerFold_nodup (kl : String) (mapping : List (String × List String)) :
    ∀ acc : List String, acc.Nodup → (mapping.foldl (classifyInnerStep kl) acc).Nodup := by
  induction mapping with
  | nil => exact fun _ h => h
  | cons e es ih =>
    intro acc h
    refine ih _ ?_
    unfold classifyInnerStep
    split
    · exact setAddAll_nodup e.2 acc h
    · exact h

theorem mem_outerFold_of_mem (keywords : List String) :
    ∀ {x : String} {acc : List String}, x ∈ acc →
      x ∈ keywords.foldl classifyStep acc := by
  induction keywords with
  | nil => exact fun h => h
  | cons kw kws ih =>
    intro x acc h
    exact ih (mem_innerFold_of_mem (pyLower kw) ClaimExtractor.ipc_mapping h)

theorem mem_outerFold_hit (keywords : List String) {kw : String}
    {entry : String × List String} {c : String}
    (hkw : kw ∈ keywords) (he : entry ∈ ClaimExtractor.ipc_mapping)
    (hc : pyIn entry.1 (pyLower kw) = true) (hm : c ∈ entry.2) :
    ∀ acc : List String, c ∈ keywords.foldl classifyStep acc := by
  induction keywords with
  | nil => cases hkw
  | cons k ks ih =>
    intro acc
    rcases List.mem_cons.mp hkw with h | h
    · subst h
      exact mem_outerFold_of_mem ks
        (mem_innerFold_hit (pyLower kw) ClaimExtractor.ipc_mapping he hc hm acc)
    · exact ih h (classifyStep acc k)

theorem outerFold_nodup (keywords : List String) :
    ∀ acc : List String, acc.Nodup → (keywords.foldl classifyStep acc).Nodup := by
  induction keywords with
  | nil => exact fun _ h => h
  | cons kw kws ih =>
    intro acc h
    exact ih _ (innerFold_nodup (pyLower kw) ClaimExtractor.ipc_mapping acc h)

theorem classify_ipc_mem (keywords : List String) {kw : String}
    {entry : String × List String} {c : String}
    (hkw : kw ∈ keywords) (he : entry ∈ ClaimExtractor.ipc_mapping)
    (hc : pyIn entry.1 (pyLower kw) = true) (hm : c ∈ entry.2) :
    c ∈ ClaimExtractor.classify_ipc keywords := by
  have hmem := mem_outerFold_hit keywords hkw he hc hm []
  have hne : (keywords.foldl classifyStep []).isEmpty = false := by
    cases hfold : keywords.foldl classifyStep [] with
    | nil => rw [hfold] at hmem; cases hmem
    | cons a l => rfl
  unfold ClaimExtractor.classify_ipc
  simp only [hne, Bool.false_eq_true, if_false]
  exact (List.mem_insertionSort pyStrLe).mpr hmem

theorem classify_ipc_sorted_nodup (keywords : List String) :
    (ClaimExtractor.classify_ipc keywords).Sorted pyStrLe ∧
      (ClaimExtractor.classify_ipc keywords).Nodup := by
  unfold ClaimExtractor.classify_ipc
  refine ⟨List.sorted_insertionSort pyStrLe _, ?_⟩
  refine ((List.perm_insertionSort pyStrLe _).symm).nodup ?_
  split
  · exact List.nodup_singleton _
  · exact outerFold_nodup keywords [] List.nodup_nil

theorem ne_empty_of_data_not_isEmpty {s : String} (h : s.data.isEmpty = false) :
    s ≠ "" := by
  intro he
  rw [he] at h
  simp at h

/-- Every branch of the background pattern loop yields a non-empty string. -/
theorem background_scan_ne (text : String) :
    ∀ ps : List String, ClaimExtractor.background_scan text ps ≠ "" := by
  intro ps
  induction ps with
  | nil =>
    unfold ClaimExtractor.background_scan
    cases h : (pyStrip (pyTake 300 text)).data.isEmpty with
    | true => simp only [h, if_true]; decide
    | false => simp only [h, Bool.false_eq_true, if_false]; exact ne_empty_of_data_not_isEmpty h
  | cons p rest ih =>
    unfold ClaimExtractor.background_scan
    simp only []
    by_cases hp : pyIn p (pyLower text) = true
    · rw [if_pos hp]
      cases h : (pyStrip (pySlice text (pyIndexOf (pyLower text) p)
          (pyIndexOf (pyLower text) p + 500))).data.isEmpty with
      | true => simp only [h, if_true]; exact ih
      | false =>
        simp only [h, Bool.false_eq_true, if_false]
        exact ne_empty_of_data_not_isEmpty h
    · rw [if_neg hp]
      exact ih

/-- `_extract_background` never returns the empty string. -/
theorem extract_background_ne (text : String) :
    ClaimExtractor.extract_background text ≠ "" := by
  unfold ClaimExtractor.extract_background
  split
  · decide
  · exact background_scan_ne text _

/-- The emptiness-fallback idiom `xs if xs else d` of `extract` never yields
the empty list when the default is non-empty. -/
theorem fallback_ne_nil {α : Type} (l d : List α) (hd : d ≠ []) :
    (if l.isEmpty then d else l) ≠ [] := by
  split
  · exact hd
  · next h =>
    intro he
    rw [he] at h
    exact h rfl

/-!
## Concrete fixtures used by witnesses and counterexamples
-/

/-- A concrete digest function (any deterministic digest is admissible). -/
def md5z : String → Nat := fun _ => 0

/-- A client constructed without credentials: stub mode. -/
def stubW : WatsonxAI :=
  WatsonxAI.init none none none "ibm/granite-3-8b-instruct" false (Except.error "no sdk")

/-- A backend whose response is valid JSON carrying an out-of-range
confidence. -/
def overconfidentBackend : Backend := fun _ => Except.ok "\x7b\"confidence\": 150\x7d"

/-- A fully configured client over `overconfidentBackend`. -/
def overconfidentW : WatsonxAI :=
  WatsonxAI.init (some "key") none (some "project") "ibm/granite-3-8b-instruct" true
    (Except.ok overconfidentBackend)

/-- A backend answering with a Markdown-fenced JSON object. -/
def fencedBackend : Backend := fun _ => Except.ok "```json\n\x7b\"a\":1\x7d\n```"

/-- A fully configured client over `fencedBackend`. -/
def fencedW : WatsonxAI :=
  WatsonxAI.init (some "key") none (some "project") "ibm/granite-3-8b-instruct" true
    (Except.ok fencedBackend)

/-- A backend answering with text that is not JSON at all. -/
def garbageBackend : Backend := fun _ => Except.ok "backend says hello"

/-- A fully configured client over `garbageBackend`. -/
def garbageW : WatsonxAI :=
  WatsonxAI.init (some "key") none (some "project") "ibm/granite-3-8b-instruct" true
    (Except.ok garbageBackend)

theorem generate_snd (w : WatsonxAI) (md5 : String → Nat) (prompt : String) :
    (w.generate md5 prompt).2 = w := by
  unfold WatsonxAI.generate
  split
  · rfl
  · split
    · split
      · rfl
      · rfl
    · rfl

theorem generate_json_snd (w : WatsonxAI) (md5 : String → Nat) (prompt : String) :
    (w.generate_json md5 prompt).2 = w := by
  unfold WatsonxAI.generate_json
  simp only []
  split
  · exact generate_snd w md5 prompt
  · exact generate_snd w md5 prompt

/-!
## Claim theorems
-/

/-- C1 (counterexample): in stub mode with the NLU collaborator returning no
keywords, `extract("")` does return the fixed background placeholder, the
fixed two-item keyword default and `["G06F"]` — but its `innovations` are
the Stub Responder's three-item innovation list, not the one-item failure
placeholder the claim asserts: the stub's reply to the innovation prompt is
a valid non-empty JSON list, so `_extract_innovations` succeeds. -/
theorem C1_counterexample :
    ClaimExtractor.extract stubW md5z (fun _ => Except.ok []) "" = Except.ok
      { background := "No disclosure text provided",
        innovations := [JValue.str "Technical innovation 1",
          JValue.str "Technical innovation 2", JValue.str "Technical innovation 3"],
        keywords := ["disclosure", "analysis"],
        ipcClassifications := ["G06F"] } ∧
    ([JValue.str "Technical innovation 1", JValue.str "Technical innovation 2",
      JValue.str "Technical innovation 3"] : List JValue) ≠
      [JValue.str "Innovation extraction failed - manual review needed"] :=
  ⟨rfl, fun h => absurd (congrArg List.length h) (by decide)⟩

/-- C1 (amended): assuming stub mode and an NLU collaborator returning no
keywords, `extract("")` returns background `"No disclosure text provided"`,
innovations equal to the stub's three-item list `["Technical innovation 1",
"Technical innovation 2", "Technical innovation 3"]`, keywords
`["disclosure", "analysis"]` and ipcClassifications `["G06F"]`. -/
theorem C1_extract_empty_disclosure_stub (w : WatsonxAI) (md5 : String → Nat)
    (nlu : NLUBehaviour) (hw : (w.use_stub || w.model.isNone) = true)
    (hn : nlu "" = Except.ok []) :
    ClaimExtractor.extract w md5 nlu "" = Except.ok
      { background := "No disclosure text provided",
        innovations := [JValue.str "Technical innovation 1",
          JValue.str "Technical innovation 2", JValue.str "Technical innovation 3"],
        keywords := ["disclosure", "analysis"],
        ipcClassifications := ["G06F"] } := by
  unfold ClaimExtractor.extract ClaimExtractor.extract_innovations
  rw [hn]
  simp only [generate_stub_of_stub_mode w md5 _ hw]
  rfl

/-- C1 (witness): the amended claim at the concrete stub client, the zero
digest and the silent NLU. -/
theorem C1_witness :
    ClaimExtractor.extract stubW md5z (fun _ => Except.ok []) "" = Except.ok
      { background := "No disclosure text provided",
        innovations := [JValue.str "Technical innovation 1",
          JValue.str "Technical innovation 2", JValue.str "Technical innovation 3"],
        keywords := ["disclosure", "analysis"],
        ipcClassifications := ["G06F"] } :=
  C1_extract_empty_disclosure_stub stubW md5z (fun _ => Except.ok []) (by rfl) (by rfl)

/-- C2 (counterexample): a configured backend answering with the valid JSON
object containing `"confidence": 150` makes
`ClaimExtractor.assess_patentability` return confidence 150, which lies
outside `[0,100]` — the claim's range guarantee does not hold for
successfully parsed responses. -/
theorem C2_counterexample :
    (ClaimExtractor.assess_patentability overconfidentW md5z "a disclosure").confidence =
      JValue.num 150 ∧ ¬ ((150 : Int) ≤ 100) :=
  ⟨rfl, by decide⟩

/-- C2 (amended): `ClaimExtractor.assess_patentability` is total (it never
raises, as its Lean type shows); on any JSON parse failure it returns the
fixed fallback assessment `{isPatentable: true, confidence: 60,
missingElements: [], recommendations: ["Manual review recommended -
automated assessment failed"]}`; and fields missing from a successfully
parsed object default to `isPatentable = true`, `confidence = 50` and empty
lists.  The confidence of a successfully parsed response, however, is passed
through unvalidated and may lie outside `[0,100]` (see the
counterexample). -/
theorem C2_assess_patentability_failsafe (w : WatsonxAI) (md5 : String → Nat)
    (text : String) :
    (Json.loads (cleanFences
        (w.generate md5 (ClaimExtractor.assess_patentability_prompt text)).1) = none →
      ClaimExtractor.assess_patentability w md5 text =
        { isPatentable := JValue.bool true,
          confidence := JValue.num 60,
          missingElements := JValue.arr [],
          recommendations := JValue.arr
            [JValue.str "Manual review recommended - automated assessment failed"] }) ∧
    (∀ fields, Json.loads (cleanFences
        (w.generate md5 (ClaimExtractor.assess_patentability_prompt text)).1) =
          some (JValue.obj fields) →
      (jLookup fields "isPatentable" = none →
        (ClaimExtractor.assess_patentability w md5 text).isPatentable = JValue.bool true) ∧
      (jLookup fields "confidence" = none →
        (ClaimExtractor.assess_patentability w md5 text).confidence = JValue.num 50) ∧
      (jLookup fields "missingElements" = none →
        (ClaimExtractor.assess_patentability w md5 text).missingElements = JValue.arr []) ∧
      (jLookup fields "recommendations" = none →
        (ClaimExtractor.assess_patentability w md5 text).recommendations = JValue.arr [])) := by
  constructor
  · intro hnone
    unfold ClaimExtractor.assess_patentability
    simp only [hnone]
    rfl
  · intro fields hsome
    refine ⟨?_, ?_, ?_, ?_⟩ <;> intro hl <;>
      · unfold ClaimExtractor.assess_patentability
        simp only [hsome, hl]
        rfl

/-- C2 (witness): the amended claim applied to a backend that answers with
text that is not JSON: the fixed fallback is returned. -/
theorem C2_witness :
    ClaimExtractor.assess_patentability garbageW md5z "any text" =
      { isPatentable := JValue.bool true,
        confidence := JValue.num 60,
        missingElements := JValue.arr [],
        recommendations := JValue.arr
          [JValue.str "Manual review recommended - automated assessment failed"] } :=
  (C2_assess_patentability_failsafe garbageW md5z "any text").1 (by rfl)

/-- C3 (counterexample): when the NLU collaborator raises, `extract` does
not return a result at all — the exception propagates (there is no `try`
around the `analyze` call), refuting the claim's "for every behaviour of
the NLU collaborator ... extract returns a result". -/
theorem C3_counterexample :
    ClaimExtractor.extract stubW md5z (fun _ => Except.error "NLU service unavailable")
      "a disclosure text" = Except.error "NLU service unavailable" := rfl

/-- C3 (amended): for every behaviour of the generation backend (including
failures and malformed outputs) and every disclosure, whenever the NLU
collaborator returns (any keyword list, including none), `extract` returns
a result whose `background`, `innovations`, `keywords` and
`ipcClassifications` are all non-empty.  If the NLU call raises, the
exception propagates out of `extract` instead. -/
theorem C3_extract_nonempty_fields (w : WatsonxAI) (md5 : String → Nat)
    (nlu : NLUBehaviour) (text : String) (kws : List String)
    (h : nlu text = Except.ok kws) :
    ∃ r, ClaimExtractor.extract w md5 nlu text = Except.ok r ∧
      r.background ≠ "" ∧ r.innovations ≠ [] ∧ r.keywords ≠ [] ∧
      r.ipcClassifications ≠ [] := by
  unfold ClaimExtractor.extract
  rw [h]
  refine ⟨_, rfl, extract_background_ne text, fallback_ne_nil _ _ (by simp),
    fallback_ne_nil _ _ (by simp), fallback_ne_nil _ _ (by simp)⟩

/-- C3 (witness): the amended claim at the stub client with an NLU returning
one keyword. -/
theorem C3_witness :
    ∃ r, ClaimExtractor.extract stubW md5z (fun _ => Except.ok ["battery"])
        "Background: a battery design" = Except.ok r ∧
      r.background ≠ "" ∧ r.innovations ≠ [] ∧ r.keywords ≠ [] ∧
      r.ipcClassifications ≠ [] :=
  C3_extract_nonempty_fields stubW md5z (fun _ => Except.ok ["battery"])
    "Background: a battery design" ["battery"] (by rfl)

/-- C4: whenever the lowercased prompt contains `'patentability'` or
`'patentable'` (the first branch of the stub), the Stub Responder returns
the JSON object whose `isPatentable` is true iff the lowercased prompt
contains any of `'device'`, `'method'`, `'system'`, `'process'`; whose
`confidence` equals `min(95, 60 + (seed mod 35))` for the digest `seed` of
the prompt — always within `[60, 95]`; whose `missingElements` is empty
when patentable and the fixed two-item list otherwise; and whose
`recommendations` is the fixed two-item list. -/
theorem C4_stub_patentability_shape (md5 : String → Nat) (prompt : String)
    (h : (pyIn "patentability" (pyLower prompt) || pyIn "patentable" (pyLower prompt)) = true) :
    WatsonxAI.stub_generate md5 prompt = Json.dumps (JValue.obj
      (patentabilityStubFields
        (pyIn "device" (pyLower prompt) || pyIn "method" (pyLower prompt) ||
         pyIn "system" (pyLower prompt) || pyIn "process" (pyLower prompt))
        (min 95 (60 + md5 prompt % 35)))) ∧
    jLookup (patentabilityStubFields
        (pyIn "device" (pyLower prompt) || pyIn "method" (pyLower prompt) ||
         pyIn "system" (pyLower prompt) || pyIn "process" (pyLower prompt))
        (min 95 (60 + md5 prompt % 35))) "isPatentable" =
      some (JValue.bool
        (pyIn "device" (pyLower prompt) || pyIn "method" (pyLower prompt) ||
         pyIn "system" (pyLower prompt) || pyIn "process" (pyLower prompt))) ∧
    jLookup (patentabilityStubFields
        (pyIn "device" (pyLower prompt) || pyIn "method" (pyLower prompt) ||
         pyIn "system" (pyLower prompt) || pyIn "process" (pyLower prompt))
        (min 95 (60 + md5 prompt % 35))) "confidence" =
      some (JValue.num (min 95 (60 + md5 prompt % 35) : Nat)) ∧
    60 ≤ min 95 (60 + md5 prompt % 35) ∧ min 95 (60 + md5 prompt % 35) ≤ 95 ∧
    jLookup (patentabilityStubFields
        (pyIn "device" (pyLower prompt) || pyIn "method" (pyLower prompt) ||
         pyIn "system" (pyLower prompt) || pyIn "process" (pyLower prompt))
        (min 95 (60 + md5 prompt % 35))) "missingElements" =
      some (JValue.arr
        (if (pyIn "device" (pyLower prompt) || pyIn "method" (pyLower prompt) ||
             pyIn "system" (pyLower prompt) || pyIn "process" (pyLower prompt)) then []
         else [JValue.str "Specific implementation details",
               JValue.str "Manufacturing specifications"])) ∧
    jLookup (patentabilityStubFields
        (pyIn "device" (pyLower prompt) || pyIn "method" (pyLower prompt) ||
         pyIn "system" (pyLower prompt) || pyIn "process" (pyLower prompt))
        (min 95 (60 + md5 prompt % 35))) "recommendations" =
      some (JValue.arr
        [JValue.str "Review disclosure against prior art",
         JValue.str "Consider claim scope"]) := by
  refine ⟨?_, rfl, rfl, Nat.le_min.mpr ⟨by norm_num, Nat.le_add_right _ _⟩,
    Nat.min_le_left _ _, rfl, rfl⟩
  unfold WatsonxAI.stub_generate
  simp only [h, eq_self_iff_true, if_true]
  rfl

/-- C4 (witness): the shape claim at the zero digest and the prompt
`"patentable device"`: the branch fires, the prompt is judged patentable
and the confidence evaluates to 60. -/
theorem C4_witness :
    WatsonxAI.stub_generate md5z "patentable device" =
      Json.dumps (JValue.obj (patentabilityStubFields true 60)) :=
  (C4_stub_patentability_shape md5z "patentable device" (by rfl)).1

/-- C5: whenever the lowercased prompt avoids the patentability markers but
contains `'similarity'` or `'compare'`, the Stub Responder returns the JSON
object whose `similarity_score` equals
`min(95, max(10, (seed mod 40) + 40 + 2 × (count "innovation" + count
"feature")))` (counts taken in the lowercased prompt) — always within
`[10, 95]`; whose `overlapping_concepts` is the fixed three-item list
exactly when the score exceeds 60 and the one-item generic list otherwise;
and whose `key_differences` is always the fixed three-item list. -/
theorem C5_stub_similarity_shape (md5 : String → Nat) (prompt : String)
    (hno : (pyIn "patentability" (pyLower prompt) || pyIn "patentable" (pyLower prompt)) = false)
    (hyes : (pyIn "similarity" (pyLower prompt) || pyIn "compare" (pyLower prompt)) = true) :
    WatsonxAI.stub_generate md5 prompt = Json.dumps (JValue.obj
      (similarityStubFields (min 95 (max 10 (md5 prompt % 40 + 40 +
        (pyCount (pyLower prompt) "innovation" + pyCount (pyLower prompt) "feature") * 2))))) ∧
    jLookup (similarityStubFields (min 95 (max 10 (md5 prompt % 40 + 40 +
        (pyCount (pyLower prompt) "innovation" + pyCount (pyLower prompt) "feature") * 2))))
        "similarity_score" =
      some (JValue.num (min 95 (max 10 (md5 prompt % 40 + 40 +
        (pyCount (pyLower prompt) "innovation" + pyCount (pyLower prompt) "feature") * 2)) : Nat)) ∧
    10 ≤ min 95 (max 10 (md5 prompt % 40 + 40 +
        (pyCount (pyLower prompt) "innovation" + pyCount (pyLower prompt) "feature") * 2)) ∧
    min 95 (max 10 (md5 prompt % 40 + 40 +
        (pyCount (pyLower prompt) "innovation" + pyCount (pyLower prompt) "feature") * 2)) ≤ 95 ∧
    (min 95 (max 10 (md5 prompt % 40 + 40 +
        (pyCount (pyLower prompt) "innovation" + pyCount (pyLower prompt) "feature") * 2)) > 60 →
      jLookup (similarityStubFields (min 95 (max 10 (md5 prompt % 40 + 40 +
          (pyCount (pyLower prompt) "innovation" + pyCount (pyLower prompt) "feature") * 2))))
          "overlapping_concepts" =
        some (JValue.arr
          [JValue.str "Technical architecture similarity",
           JValue.str "Implementation approach",
           JValue.str "Performance optimization strategy"])) ∧
    (¬ min 95 (max 10 (md5 prompt % 40 + 40 +
        (pyCount (pyLower prompt) "innovation" + pyCount (pyLower prompt) "feature") * 2)) > 60 →
      jLookup (similarityStubFields (min 95 (max 10 (md5 prompt % 40 + 40 +
          (pyCount (pyLower prompt) "innovation" + pyCount (pyLower prompt) "feature") * 2))))
          "overlapping_concepts" =
        some (JValue.arr [JValue.str "Generic technological domain"])) ∧
    jLookup (similarityStubFields (min 95 (max 10 (md5 prompt % 40 + 40 +
        (pyCount (pyLower prompt) "innovation" + pyCount (pyLower prompt) "feature") * 2))))
        "key_differences" =
      some (JValue.arr
        [JValue.str "Novel algorithm implementation",
         JValue.str "Enhanced efficiency metrics",
         JValue.str "Improved scaling approach"]) := by
  refine ⟨?_, rfl, Nat.le_min.mpr ⟨by norm_num, Nat.le_max_left _ _⟩,
    Nat.min_le_left _ _, ?_, ?_, rfl⟩
  · unfold WatsonxAI.stub_generate
    simp only [hno, hyes, eq_self_iff_true, if_true, Bool.false_eq_true, if_false]
    rfl
  · intro h60
    have base : jLookup (similarityStubFields (min 95 (max 10 (md5 prompt % 40 + 40 +
        (pyCount (pyLower prompt) "innovation" + pyCount (pyLower prompt) "feature") * 2))))
        "overlapping_concepts" =
      some (JValue.arr
        (if min 95 (max 10 (md5 prompt % 40 + 40 +
            (pyCount (pyLower prompt) "innovation" + pyCount (pyLower prompt) "feature") * 2)) > 60
         then [JValue.str "Technical architecture similarity",
               JValue.str "Implementation approach",
               JValue.str "Performance optimization strategy"]
         else [JValue.str "Generic technological domain"])) := rfl
    rw [base, if_pos h60]
  · intro h60
    have base : jLookup (similarityStubFields (min 95 (max 10 (md5 prompt % 40 + 40 +
        (pyCount (pyLower prompt) "innovation" + pyCount (pyLower prompt) "feature") * 2))))
        "overlapping_concepts" =
      some (JValue.arr
        (if min 95 (max 10 (md5 prompt % 40 + 40 +
            (pyCount (pyLower prompt) "innovation" + pyCount (pyLower prompt) "feature") * 2)) > 60
         then [JValue.str "Technical architecture similarity",
               JValue.str "Implementation approach",
               JValue.str "Performance optimization strategy"]
         else [JValue.str "Generic technological domain"])) := rfl
    rw [base, if_neg h60]

/-- C5 (witness): the shape claim at the zero digest and the prompt
`"compare innovation feature"`: the similarity branch fires and the score
evaluates to `0 % 40 + 40 + (1 + 1) * 2 = 44`. -/
theorem C5_witness :
    WatsonxAI.stub_generate md5z "compare innovation feature" =
      Json.dumps (JValue.obj (similarityStubFields 44)) :=
  (C5_stub_similarity_shape md5z "compare innovation feature" (by rfl) (by rfl)).1

/-- C6: the classification contract: every code of every table entry whose
term is a substring of some lowercased input keyword is in the result; the
result is sorted (by Python's code-point string order) and de-duplicated;
`classify([])` is exactly `["G06F"]`; `classify(["battery"])` is exactly
the one battery code; and `classify(["Lithium Battery"])` is exactly the
union of the battery and lithium codes. -/
theorem C6_classify_ipc_contract :
    (∀ (keywords : List String) (kw : String) (entry : String × List String) (c : String),
        kw ∈ keywords → entry ∈ ClaimExtractor.ipc_mapping →
        pyIn entry.1 (pyLower kw) = true → c ∈ entry.2 →
        c ∈ ClaimExtractor.classify_ipc keywords) ∧
    (∀ keywords : List String,
        (ClaimExtractor.classify_ipc keywords).Sorted pyStrLe ∧
        (ClaimExtractor.classify_ipc keywords).Nodup) ∧
    ClaimExtractor.classify_ipc [] = ["G06F"] ∧
    ClaimExtractor.classify_ipc ["battery"] = ["H01M10/05"] ∧
    ClaimExtractor.classify_ipc ["Lithium Battery"] = ["H01M10/05", "H01M10/0525"] :=
  ⟨fun ks _ _ _ h1 h2 h3 h4 => classify_ipc_mem ks h1 h2 h3 h4,
    classify_ipc_sorted_nodup, rfl, rfl, rfl⟩

/-- C6 (witness): the membership part of the contract applied to the
keyword list `["battery"]` and the battery table entry. -/
theorem C6_witness : "H01M10/05" ∈ ClaimExtractor.classify_ipc ["battery"] :=
  C6_classify_ipc_contract.1 ["battery"] "battery" ("battery", ["H01M10/05"]) "H01M10/05"
    (List.mem_cons_self _ _) (List.mem_cons_self _ _) (by rfl) (List.mem_cons_self _ _)

/-- C7: `generate_json` strips the Markdown fence markers and trims, then
parses: when the cleaned text is valid JSON the parsed value is returned,
and when parsing fails the decode error (carrying the offending cleaned
text) propagates to the caller; concretely, on a backend response equal to
a fenced `{"a":1}` object it returns the mapping `{"a": 1}`, the cleanup of
that response being exactly `{"a":1}`. -/
theorem C7_generate_json_contract :
    (∀ (w : WatsonxAI) (md5 : String → Nat) (prompt : String) (v : JValue),
        Json.loads (cleanFences (w.generate md5 prompt).1) = some v →
        (w.generate_json md5 prompt).1 = Except.ok v) ∧
    (∀ (w : WatsonxAI) (md5 : String → Nat) (prompt : String),
        Json.loads (cleanFences (w.generate md5 prompt).1) = none →
        (w.generate_json md5 prompt).1 =
          Except.error (cleanFences (w.generate md5 prompt).1)) ∧
    cleanFences "```json\n\x7b\"a\":1\x7d\n```" = "\x7b\"a\":1\x7d" ∧
    (fencedW.generate_json md5z "any prompt").1 =
      Except.ok (JValue.obj [("a", JValue.num 1)]) := by
  refine ⟨?_, ?_, rfl, rfl⟩
  · intro w md5 prompt v h
    unfold WatsonxAI.generate_json
    simp only [h]
  · intro w md5 prompt h
    unfold WatsonxAI.generate_json
    simp only [h]

/-- C7 (witness): the parse-success half applied to the fenced-JSON
backend. -/
theorem C7_witness :
    (fencedW.generate_json md5z "a prompt").1 =
      Except.ok (JValue.obj [("a", JValue.num 1)]) :=
  C7_generate_json_contract.1 fencedW md5z "a prompt" (JValue.obj [("a", JValue.num 1)])
    (by rfl)

/-- C8: `generate` is total (its Lean type returns a `String`, never an
error) and falls back to the Stub Responder whenever the client is in stub
mode, has no initialised model, or the configured backend's call raises;
when the backend call succeeds, its trimmed response is returned. -/
theorem C8_generate_total_fallback (w : WatsonxAI) (md5 : String → Nat) (prompt : String) :
    ((w.use_stub || w.model.isNone) = true →
      w.generate md5 prompt = (WatsonxAI.stub_generate md5 prompt, w)) ∧
    (∀ (b : Backend) (e : String), w.use_stub = false → w.model = some b →
      b prompt = Except.error e →
      w.generate md5 prompt = (WatsonxAI.stub_generate md5 prompt, w)) ∧
    (∀ (b : Backend) (s : String), w.use_stub = false → w.model = some b →
      b prompt = Except.ok s →
      w.generate md5 prompt = (pyStrip s, w)) := by
  refine ⟨generate_stub_of_stub_mode w md5 prompt, ?_, ?_⟩
  · intro b e huse hmodel herr
    unfold WatsonxAI.generate
    simp only [huse, hmodel, herr, Option.isNone_some, Bool.or_self,
      Bool.false_eq_true, if_false]
  · intro b s huse hmodel hok
    unfold WatsonxAI.generate
    simp only [huse, hmodel, hok, Option.isNone_some, Bool.or_self,
      Bool.false_eq_true, if_false]

/-- C8 (witness): the stub-mode fallback at the unconfigured client. -/
theorem C8_witness :
    stubW.generate md5z "hello" = (WatsonxAI.stub_generate md5z "hello", stubW) :=
  (C8_generate_total_fallback stubW md5z "hello").1 (by rfl)

/-- C9: whenever generation of the patentability prompt goes through the
Stub Responder (stub mode, or a backend failure on that call), both
`WatsonxAI.assess_patentability` and `ClaimExtractor.assess_patentability`
report `isPatentable = true` for every disclosure text: the fixed prompt
template itself contains the trigger words `device`, `method` and `process`
that the stub's patentability branch tests. -/
theorem C9_stub_always_patentable (w : WatsonxAI) (md5 : String → Nat) (text : String)
    (h : w.generate md5 (patentabilityPromptHead ++ pyTake 2000 text ++ patentabilityPromptTail) =
      (WatsonxAI.stub_generate md5
        (patentabilityPromptHead ++ pyTake 2000 text ++ patentabilityPromptTail), w)) :
    (WatsonxAI.assess_patentability w md5 text).1 = Except.ok (JValue.obj
      (patentabilityStubFields true (min 95 (60 +
        md5 (WatsonxAI.assess_patentability_prompt text) % 35)))) ∧
    jLookup (patentabilityStubFields true (min 95 (60 +
        md5 (WatsonxAI.assess_patentability_prompt text) % 35))) "isPatentable" =
      some (JValue.bool true) ∧
    (ClaimExtractor.assess_patentability w md5 text).isPatentable = JValue.bool true :=
  ⟨waiAssess_stub w md5 text h, rfl, ceAssess_stub w md5 text h⟩

/-- C9 (witness): at the unconfigured stub client, the zero digest and a
pure-theory disclosure, the extractor still reports patentable. -/
theorem C9_witness :
    (ClaimExtractor.assess_patentability stubW md5z "a pure theory").isPatentable =
      JValue.bool true :=
  (C9_stub_always_patentable stubW md5z "a pure theory" (by rfl)).2.2

/-- C10: neither `generate` nor `generate_json` changes the object's
configuration: the state after any call equals the state before it, so in
particular `use_stub`, `model`, `api_key`, `watsonx_url`, `project_id` and
`model_id` are unchanged and a backend failure never demotes the client to
stub mode permanently. -/
theorem C10_generate_preserves_config (w : WatsonxAI) (md5 : String → Nat)
    (prompt : String) :
    (w.generate md5 prompt).2 = w ∧ (w.generate_json md5 prompt).2 = w ∧
    ((w.generate md5 prompt).2).use_stub = w.use_stub ∧
    ((w.generate md5 prompt).2).model = w.model ∧
    ((w.generate md5 prompt).2).api_key = w.api_key ∧
    ((w.generate md5 prompt).2).watsonx_url = w.watsonx_url ∧
    ((w.generate md5 prompt).2).project_id = w.project_id ∧
    ((w.generate md5 prompt).2).model_id = w.model_id ∧
    ((w.generate_json md5 prompt).2).use_stub = w.use_stub ∧
    ((w.generate_json md5 prompt).2).model = w.model := by
  have h1 := generate_snd w md5 prompt
  have h2 := generate_json_snd w md5 prompt
  exact ⟨h1, h2, by rw [h1], by rw [h1], by rw [h1], by rw [h1], by rw [h1],
    by rw [h1], by rw [h2], by rw [h2]⟩

end PriorArt
